import Mathlib

/-!
Verification of the `nomad-forematics` schema-package normalizers.

The repository is a set of NOMAD ELN schema declarations with small
`normalize` callbacks.  We embed the state each normalizer manipulates as a
Lean structure and the callback itself as a pure function on that state,
translated statement by statement from the Python source:

* `substrateNormalize`   — `ForematicsSubstrate.normalize`
  (`schema_packages/substrate.py`, lines 99-126),
* `batchNormalize`       — `ForematicsSubstrateBatch.normalize`
  (`substrate.py`, lines 232-287),
* `nextUsedIn`           — `ForematicsSubstrateBatch.next_used_in`
  (`substrate.py`, lines 196-227), with the host search service abstracted
  as a counting oracle,
* `solutionNormalize`    — `ForOPVSolution.normalize` and its helper
  `_calculate_*_strings` methods (`schema_packages/solution.py`,
  lines 184-242).

Numeric quantities (`np.float64` magnitudes carrying pint units in the
source) are embedded as `ℚ` magnitudes in the fixed unit noted at each
field; the exact proportional-allocation arithmetic of the claims is about
these magnitudes.  The `%.6g` float formatting of report lines is
abstracted by `fmtQ`; the placeholder report lines are the source's string
literals verbatim.
-/

namespace NomadForematics

/-! ### `ForematicsSubstrate` (substrate.py, lines 51-126) -/

/-- `MEnum(['Patterned', 'Full', 'None'])` of `substrate_coverage_pattern`. -/
inductive CoveragePattern
  | patterned
  | full
  | nonePat
  deriving DecidableEq

/-- `MEnum(['ITO', 'FTO', 'None'])` of `substrate_coverage_material`. -/
inductive CoverageMaterial
  | ito
  | fto
  | noneMat
  deriving DecidableEq

/-- `MEnum(['Scale-up', 'Spin-coating', 'Glass slide'])` of `substrate_size`. -/
inductive SubstrateSize
  | scaleUp
  | spinCoating
  | glassSlide
  deriving DecidableEq

/-- The quantities of `ForematicsSubstrate` that its normalizer touches.
`length`, `width`, `thickness` are magnitudes in metres. -/
structure ForematicsSubstrate where
  substrate_coverage_pattern : CoveragePattern
  substrate_coverage_material : CoverageMaterial
  substrate_size : SubstrateSize
  length : ℚ
  width : ℚ
  thickness : ℚ
  deriving DecidableEq

/-- `ForematicsSubstrate.normalize` (substrate.py, lines 99-126).  The
`super().normalize` call belongs to the host framework and touches none of
the fields modelled here. -/
def substrateNormalize (s : ForematicsSubstrate) : ForematicsSubstrate :=
  let s1 :=
    if s.substrate_coverage_pattern = CoveragePattern.nonePat then
      { s with substrate_coverage_material := CoverageMaterial.noneMat }
    else s
  match s1.substrate_size with
  | SubstrateSize.scaleUp =>
      { s1 with width := 0.025, length := 0.075, thickness := 0.0011 }
  | SubstrateSize.spinCoating =>
      { s1 with width := 0.010, length := 0.020, thickness := 0.0011 }
  | SubstrateSize.glassSlide =>
      { s1 with width := 0.026, length := 0.076, thickness := 0.0011 }

/-! ### `ForematicsSubstrateBatch` (substrate.py, lines 136-287) -/

/-- The fields of the `CompositeSystemReference` records the batch
normalizer appends to `entities` (substrate.py, lines 280-286). -/
structure EntityRef where
  name : String
  lab_id : String
  deriving DecidableEq

/-- The quantities of `ForematicsSubstrateBatch` that its normalizer reads
or writes.  `length`, `width`, `thickness` are magnitudes in metres;
`number_of_substrates` is the Python `int` quantity. -/
structure ForematicsSubstrateBatch where
  entities : List EntityRef
  material : String
  supplier : String
  length : ℚ
  width : ℚ
  thickness : ℚ
  create_substrates : Bool
  number_of_substrates : Int
  name : String
  lab_id : String
  datetime : String
  deriving DecidableEq

/-- The reference record built for loop index `i`
(substrate.py, lines 275-285): `name = f'{self.name} {i}'` and
`lab_id = f'{self.lab_id}-{i}'`. -/
def batchChildRef (b : ForematicsSubstrateBatch) (i : Nat) : EntityRef :=
  { name := b.name ++ " " ++ toString i
    lab_id := b.lab_id ++ "-" ++ toString i }

/-- `ForematicsSubstrateBatch.normalize` (substrate.py, lines 232-287).
When `create_substrates` is set the entity list is reset to `[]` and one
reference per loop index in `range(number_of_substrates)` is appended;
`Int.toNat` matches Python `range`, which is empty for a non-positive
argument.  The construction and persistence of the child substrate archives
themselves go through the host framework (`create_archive`) and are outside
the batch state. -/
def batchNormalize (b : ForematicsSubstrateBatch) : ForematicsSubstrateBatch :=
  if b.create_substrates then
    { b with
      entities :=
        (List.range b.number_of_substrates.toNat).map (batchChildRef b)
      create_substrates := false }
  else b

/-! ### `ForematicsSubstrateBatch.next_used_in` (substrate.py, lines 196-227)

The host search service is abstracted as an oracle `usedCount` giving, for a
resolved substrate, the total number of records of the target entry type
that reference it (the code only compares this total against zero, using a
page size of 1).  A batch entity reference is modelled by what it resolves
to: `m_proxy_resolve` forces a lazy proxy, then the `isinstance` test keeps
the value only when it is a `ForematicsSubstrate`. -/

/-- A batch entity reference as `next_used_in` sees it: `isProxy` records
whether the `reference` attribute is still a lazy `MProxy`, and `resolved`
is the substrate the reference yields after forced resolution (`none` when
the resolved value is not a `ForematicsSubstrate`). -/
structure SubstrateRef (α : Type) where
  isProxy : Bool
  resolved : Option α
  deriving DecidableEq

/-- Resolving `ref.reference` (substrate.py, lines 206-210): a proxy is
forced first; either way the loop continues unless the value is a
`ForematicsSubstrate`. -/
def resolveRef {α : Type} (r : SubstrateRef α) : Option α :=
  r.resolved

/-- `ForematicsSubstrateBatch.next_used_in` (substrate.py, lines 196-227):
walk the entity references in order; skip those that do not resolve to a
substrate; return the first whose search total is positive (or, negated,
zero); return `None` when the loop falls through. -/
def nextUsedIn {α : Type} (usedCount : α → Nat) (negate : Bool) :
    List (SubstrateRef α) → Option α
  | [] => none
  | r :: rest =>
    match resolveRef r with
    | none => nextUsedIn usedCount negate rest
    | some substrate =>
      if 0 < usedCount substrate ∧ negate = false then some substrate
      else if usedCount substrate = 0 ∧ negate = true then some substrate
      else nextUsedIn usedCount negate rest

/-- The specification-side selection predicate of C7: a substrate qualifies
when the search reports at least one record of the target type referencing
it, or, in negated mode, zero such records. -/
def usedInPred {α : Type} (usedCount : α → Nat) (negate : Bool) (s : α) :
    Bool :=
  if negate then decide (usedCount s = 0) else decide (0 < usedCount s)

/-- Unfolding lemma: one iteration of the `next_used_in` loop either skips
an unresolvable reference or tests the resolved substrate against the
selection predicate. -/
theorem nextUsedIn_cons {α : Type} (usedCount : α → Nat) (negate : Bool)
    (r : SubstrateRef α) (rest : List (SubstrateRef α)) :
    nextUsedIn usedCount negate (r :: rest) =
      match resolveRef r with
      | none => nextUsedIn usedCount negate rest
      | some sub =>
        if usedInPred usedCount negate sub then some sub
        else nextUsedIn usedCount negate rest := by
  cases hr : resolveRef r with
  | none => simp [nextUsedIn, hr]
  | some sub =>
    simp only [nextUsedIn, hr]
    cases hn : negate with
    | false =>
      rcases Nat.eq_zero_or_pos (usedCount sub) with h0 | hp
      · simp [usedInPred, h0]
      · simp [usedInPred, hp]
    | true =>
      rcases Nat.eq_zero_or_pos (usedCount sub) with h0 | hp
      · simp [usedInPred, h0]
      · simp [usedInPred, hp, hp.ne']

/-! ### `ForOPVSolution` (solution.py, lines 46-242) -/

/-- The fields of `SolventComponent` (solution.py, lines 46-70) used by the
calculation: the dimensionless mixing `ratio` and the display `name`. -/
structure SolventComponent where
  ratio : ℚ
  name : String
  deriving DecidableEq

/-- The fields of `OrgSCComponent` (solution.py, lines 72-96) used by the
calculation (donors and acceptors share this class). -/
structure OrgSCComponent where
  ratio : ℚ
  name : String
  deriving DecidableEq

/-- The fields of `AdditiveComponent` (solution.py, lines 98-116) used by
the calculation: `liquid_percent` is a volume percentage. -/
structure AdditiveComponent where
  name : String
  liquid_percent : ℚ
  deriving DecidableEq

/-- The quantities of `ForOPVSolution` (solution.py, lines 119-182) that
its normalizer reads or writes.  `total_volume` is a magnitude in litres
and `solute_concentration` a magnitude in g/l (numerically equal to the
mg/ml the report uses). -/
structure ForOPVSolution where
  solvents : List SolventComponent
  donors : List OrgSCComponent
  acceptors : List OrgSCComponent
  additives : List AdditiveComponent
  total_volume : ℚ
  solute_concentration : ℚ
  calculate_solution : Bool
  calculated_solution : String
  deriving DecidableEq

/-- `total_solvent_ratio` (solution.py, line 209): the sum of the solvent
ratios. -/
def totalSolventRatio (s : ForOPVSolution) : ℚ :=
  (s.solvents.map SolventComponent.ratio).sum

/-- `total_osc_ratio` (solution.py, line 216): the sum of the ratios over
the donors and acceptors lists combined. -/
def totalOscRatio (s : ForOPVSolution) : ℚ :=
  (s.donors.map OrgSCComponent.ratio).sum
    + (s.acceptors.map OrgSCComponent.ratio).sum

/-- `total_osc_mg` (solution.py, line 217) expressed in grams:
`solute_concentration.to('mg/ml') * total_volume.to('ml')` in mg equals
`solute_concentration * total_volume` with the magnitudes of this
embedding (g/l times l). -/
def totalOscMass (s : ForOPVSolution) : ℚ :=
  s.solute_concentration * s.total_volume

/-- `solvent_volume` per solvent (solution.py, line 211), in litres. -/
def solventVolumes (s : ForOPVSolution) : List ℚ :=
  s.solvents.map (fun c => s.total_volume * c.ratio / totalSolventRatio s)

/-- `osc_mg` per donor (solution.py, line 223), in grams. -/
def donorMasses (s : ForOPVSolution) : List ℚ :=
  s.donors.map (fun c => totalOscMass s * c.ratio / totalOscRatio s)

/-- `osc_mg` per acceptor (solution.py, line 231), in grams. -/
def acceptorMasses (s : ForOPVSolution) : List ℚ :=
  s.acceptors.map (fun c => totalOscMass s * c.ratio / totalOscRatio s)

/-- `additive_volume` per additive (solution.py, line 240), in litres. -/
def additiveVolumes (s : ForOPVSolution) : List ℚ :=
  s.additives.map (fun a => a.liquid_percent / 100 * s.total_volume)

/-- Stand-in for the `%.6g` float formatting of the report's numeric
fields; the claims under verification inspect only the placeholder lines
and the numeric values themselves, never these formatted digits. -/
def fmtQ (q : ℚ) : String :=
  toString q

/-- `_calculate_solvent_strings` (solution.py, lines 205-213): placeholder
when the solvent list is empty, else one line per solvent with its volume
converted to ml. -/
def solventStrings (s : ForOPVSolution) : List String :=
  if s.solvents = [] then ["No solvent components defined"]
  else
    s.solvents.map (fun c =>
      "Solvent: " ++ c.name ++ " -> "
        ++ fmtQ (s.total_volume * c.ratio / totalSolventRatio s * 1000)
        ++ " ml")

/-- `_calculate_osc_strings` (solution.py, lines 215-233): a placeholder
line for an empty donors list, else one line per donor; then the same for
acceptors.  Masses are reported in mg. -/
def oscStrings (s : ForOPVSolution) : List String :=
  (if s.donors = [] then ["No donor components defined"]
   else
     s.donors.map (fun c =>
       "Donor: " ++ c.name ++ " -> "
         ++ fmtQ (totalOscMass s * c.ratio / totalOscRatio s * 1000)
         ++ " mg"))
  ++
  (if s.acceptors = [] then ["No acceptor components defined"]
   else
     s.acceptors.map (fun c =>
       "Acceptor: " ++ c.name ++ " -> "
         ++ fmtQ (totalOscMass s * c.ratio / totalOscRatio s * 1000)
         ++ " mg"))

/-- `_calculate_additive_strings` (solution.py, lines 235-242):
placeholder when the additive list is empty, else one line per additive
with its volume in microlitres. -/
def additiveStrings (s : ForOPVSolution) : List String :=
  if s.additives = [] then ["No additives components defined"]
  else
    s.additives.map (fun a =>
      "Additive: " ++ a.name ++ " -> "
        ++ fmtQ (a.liquid_percent / 100 * (s.total_volume * 1000000))
        ++ " ul")

/-- The `print_string` list accumulated by `ForOPVSolution.normalize`
(solution.py, lines 195-198). -/
def reportLines (s : ForOPVSolution) : List String :=
  solventStrings s ++ oscStrings s ++ additiveStrings s

/-- Every division the report computation performs whose denominator
depends on the data (solution.py, lines 211, 223, 231): the solvent branch
divides by `total_solvent_ratio` only when the solvent list is non-empty,
and the donor/acceptor loops divide by `total_osc_ratio` only when the
corresponding list is non-empty.  The additive branch divides by the
constant 100 only. -/
def reportDenoms (s : ForOPVSolution) : List ℚ :=
  (if s.solvents = [] then [] else [totalSolventRatio s])
  ++ (if s.donors = [] ∧ s.acceptors = [] then [] else [totalOscRatio s])

/-- `ForOPVSolution.normalize` (solution.py, lines 184-203): when
`calculate_solution` is set, join the report lines with `'<br />'` into
`calculated_solution` and reset the flag; otherwise do nothing.  The
`super().normalize` call belongs to the host framework and touches none of
the fields modelled here. -/
def solutionNormalize (s : ForOPVSolution) : ForOPVSolution :=
  if s.calculate_solution then
    { s with
      calculated_solution := String.intercalate "<br />" (reportLines s)
      calculate_solution := false }
  else s

/-! ### Cleaning-protocol expansion (spec §4.4)

`CleaningStep` is declared in substrate.py (lines 290-307), but the
cleaning-process normalizer that expands a procedure mode into steps is not
present under src/ (the `ForematicsSubstrateCleaning` class there is
commented out), so the expansion itself is modelled from the spec. -/

/-- `MEnum(['Acetone', 'Helmanex', 'IPA', 'NaOH', 'UV-Ozone'])` of
`cleaning_agent` (substrate.py, line 293); the spec's "Hellmanex" names
the `Helmanex` member of this declared enumeration. -/
inductive CleaningAgent
  | acetone
  | helmanex
  | ipa
  | naoh
  | uvOzone
  deriving DecidableEq

/-- The quantities of `CleaningStep` (substrate.py, lines 290-307);
`cleaning_time` is a magnitude in seconds. -/
structure CleaningStep where
  cleaning_agent : CleaningAgent
  sonication : Bool
  cleaning_time : ℚ
  deriving DecidableEq

/-- Modelled from the spec: the procedure-mode selector of the cleaning
process record, absent from src/.  The spec distinguishes only the
"Standard" mode, which triggers the fixed expansion, from any other mode. -/
inductive CleaningProcedureMode
  | standard
  | custom
  deriving DecidableEq

/-- Modelled from the spec: the literal table of (cleaning agent, duration)
pairs of the "Standard" protocol — Acetone 300 s, Hellmanex 300 s, IPA
300 s, NaOH 600 s — each step marked as using sonication (spec §4.4, §8). -/
def standardCleaningSteps : List CleaningStep :=
  [ { cleaning_agent := CleaningAgent.acetone, sonication := true, cleaning_time := 300 }
  , { cleaning_agent := CleaningAgent.helmanex, sonication := true, cleaning_time := 300 }
  , { cleaning_agent := CleaningAgent.ipa, sonication := true, cleaning_time := 300 }
  , { cleaning_agent := CleaningAgent.naoh, sonication := true, cleaning_time := 600 } ]

/-- Modelled from the spec: the cleaning-process normalizer, absent from
src/.  "When procedure mode is \"Standard\", discards any existing step
list and appends four fixed steps from a literal table of (cleaning agent,
duration) pairs, each marked as using sonication" (spec §4.4). -/
def cleaningNormalize (mode : CleaningProcedureMode)
    (steps : List CleaningStep) : List CleaningStep :=
  match mode with
  | CleaningProcedureMode.standard => standardCleaningSteps
  | CleaningProcedureMode.custom => steps

/-! ## Claims -/

/-- C6: after `normalize`, the size category deterministically sets the
dimension triple — "Scale-up" gives (length, width, thickness) =
(0.075 m, 0.025 m, 0.0011 m), "Spin-coating" gives
(0.020 m, 0.010 m, 0.0011 m), "Glass slide" gives
(0.076 m, 0.026 m, 0.0011 m) — regardless of the dimensions held before. -/
theorem substrate_size_sets_dimensions (s : ForematicsSubstrate) :
    (s.substrate_size = SubstrateSize.scaleUp →
      (substrateNormalize s).length = 0.075 ∧
      (substrateNormalize s).width = 0.025 ∧
      (substrateNormalize s).thickness = 0.0011) ∧
    (s.substrate_size = SubstrateSize.spinCoating →
      (substrateNormalize s).length = 0.020 ∧
      (substrateNormalize s).width = 0.010 ∧
      (substrateNormalize s).thickness = 0.0011) ∧
    (s.substrate_size = SubstrateSize.glassSlide →
      (substrateNormalize s).length = 0.076 ∧
      (substrateNormalize s).width = 0.026 ∧
      (substrateNormalize s).thickness = 0.0011) := by
  unfold substrateNormalize
  cases hp : s.substrate_coverage_pattern <;>
    cases hs : s.substrate_size <;> simp [hp, hs]

/-- C6 witness: a "Scale-up" substrate entered with arbitrary dimensions
comes out of `normalize` with the (0.075, 0.025, 0.0011) triple. -/
theorem substrate_size_sets_dimensions_witness :
    (substrateNormalize
      { substrate_coverage_pattern := CoveragePattern.full
        substrate_coverage_material := CoverageMaterial.ito
        substrate_size := SubstrateSize.scaleUp
        length := 1, width := 2, thickness := 3 }).length = 0.075 ∧
    (substrateNormalize
      { substrate_coverage_pattern := CoveragePattern.full
        substrate_coverage_material := CoverageMaterial.ito
        substrate_size := SubstrateSize.scaleUp
        length := 1, width := 2, thickness := 3 }).width = 0.025 ∧
    (substrateNormalize
      { substrate_coverage_pattern := CoveragePattern.full
        substrate_coverage_material := CoverageMaterial.ito
        substrate_size := SubstrateSize.scaleUp
        length := 1, width := 2, thickness := 3 }).thickness = 0.0011 :=
  (substrate_size_sets_dimensions _).1 rfl

/-- C9: after `normalize`, a substrate whose coverage pattern reads "None"
has coverage material "None", regardless of the material held before. -/
theorem coverage_none_forces_material_none (s : ForematicsSubstrate)
    (h : (substrateNormalize s).substrate_coverage_pattern
          = CoveragePattern.nonePat) :
    (substrateNormalize s).substrate_coverage_material
      = CoverageMaterial.noneMat := by
  unfold substrateNormalize at h ⊢
  cases hp : s.substrate_coverage_pattern <;>
    cases hs : s.substrate_size <;> simp [hp, hs] at h ⊢

/-- C9 witness: a substrate with pattern "None" but material "ITO" comes
out of `normalize` with material "None". -/
theorem coverage_none_forces_material_none_witness :
    (substrateNormalize
      { substrate_coverage_pattern := CoveragePattern.nonePat
        substrate_coverage_material := CoverageMaterial.ito
        substrate_size := SubstrateSize.spinCoating
        length := 1, width := 2, thickness := 3 }).substrate_coverage_material
      = CoverageMaterial.noneMat :=
  coverage_none_forces_material_none _ (by decide)

/-- C1: for a batch with `create_substrates` set and
`number_of_substrates = N ≥ 0`, `normalize` replaces the entity list by
exactly N child references whose `lab_id`s are `<batch lab_id>-0` through
`<batch lab_id>-(N-1)` in that order, and clears the flag. -/
theorem batch_create_substrates_entities (b : ForematicsSubstrateBatch)
    (hc : b.create_substrates = true) (hn : 0 ≤ b.number_of_substrates) :
    ((batchNormalize b).entities.length : ℤ) = b.number_of_substrates ∧
    (∀ i : Nat, ∀ h : i < (batchNormalize b).entities.length,
      ((batchNormalize b).entities.get ⟨i, h⟩).lab_id
        = b.lab_id ++ "-" ++ toString i) ∧
    (batchNormalize b).create_substrates = false := by
  refine ⟨?_, ?_, ?_⟩
  · simp [batchNormalize, hc, Int.toNat_of_nonneg hn]
  · intro i h
    simp [batchNormalize, hc, batchChildRef]
  · simp [batchNormalize, hc]

/-- C1 witness: a batch labelled "BA" with 3 substrates requested yields
child references "BA-0", "BA-1", "BA-2" and a cleared flag. -/
theorem batch_create_substrates_entities_witness :
    (0 : ℤ) ≤ (3 : ℤ) ∧
    (((batchNormalize
        { entities := [{ name := "stale", lab_id := "stale-0" }]
          material := "Glass", supplier := "Ossila"
          length := 0.04, width := 0.04, thickness := 0.000675
          create_substrates := true, number_of_substrates := 3
          name := "Batch A", lab_id := "BA"
          datetime := "2025-01-01" }).entities.length : ℤ) = 3 ∧
     (∀ i : Nat, ∀ h : i < (batchNormalize
        { entities := [{ name := "stale", lab_id := "stale-0" }]
          material := "Glass", supplier := "Ossila"
          length := 0.04, width := 0.04, thickness := 0.000675
          create_substrates := true, number_of_substrates := 3
          name := "Batch A", lab_id := "BA"
          datetime := "2025-01-01" }).entities.length,
       ((batchNormalize
        { entities := [{ name := "stale", lab_id := "stale-0" }]
          material := "Glass", supplier := "Ossila"
          length := 0.04, width := 0.04, thickness := 0.000675
          create_substrates := true, number_of_substrates := 3
          name := "Batch A", lab_id := "BA"
          datetime := "2025-01-01" }).entities.get ⟨i, h⟩).lab_id
         = "BA" ++ "-" ++ toString i) ∧
     (batchNormalize
        { entities := [{ name := "stale", lab_id := "stale-0" }]
          material := "Glass", supplier := "Ossila"
          length := 0.04, width := 0.04, thickness := 0.000675
          create_substrates := true, number_of_substrates := 3
          name := "Batch A", lab_id := "BA"
          datetime := "2025-01-01" }).create_substrates = false) :=
  ⟨by decide, batch_create_substrates_entities _ rfl (by decide)⟩

/-- C8: the create action is idempotent per trigger — `normalize` with the
flag set clears it, and a second `normalize` immediately afterwards leaves
the whole batch state (entities and all other fields) unchanged. -/
theorem batch_create_idempotent (b : ForematicsSubstrateBatch)
    (hc : b.create_substrates = true) :
    batchNormalize (batchNormalize b) = batchNormalize b := by
  simp [batchNormalize, hc]

/-- C8 witness: idempotence at a concrete triggered batch. -/
theorem batch_create_idempotent_witness :
    batchNormalize (batchNormalize
      { entities := []
        material := "Glass", supplier := "Ossila"
        length := 0.04, width := 0.04, thickness := 0.000675
        create_substrates := true, number_of_substrates := 2
        name := "Batch B", lab_id := "BB"
        datetime := "2025-01-02" })
    = batchNormalize
      { entities := []
        material := "Glass", supplier := "Ossila"
        length := 0.04, width := 0.04, thickness := 0.000675
        create_substrates := true, number_of_substrates := 2
        name := "Batch B", lab_id := "BB"
        datetime := "2025-01-02" } :=
  batch_create_idempotent _ rfl

/-- C2: with procedure mode "Standard", normalization discards any existing
step list and yields exactly the four cleaning steps (Acetone, 300 s),
(Hellmanex, 300 s), (IPA, 300 s), (NaOH, 600 s) in that order, each with
the sonication flag enabled.  (The expansion is modelled from the spec; the
spec's "Hellmanex" agent is the `Helmanex` member of the enumeration
declared in substrate.py.) -/
theorem standard_cleaning_four_steps (mode : CleaningProcedureMode)
    (steps : List CleaningStep) (h : mode = CleaningProcedureMode.standard) :
    cleaningNormalize mode steps =
      [ { cleaning_agent := CleaningAgent.acetone, sonication := true, cleaning_time := 300 }
      , { cleaning_agent := CleaningAgent.helmanex, sonication := true, cleaning_time := 300 }
      , { cleaning_agent := CleaningAgent.ipa, sonication := true, cleaning_time := 300 }
      , { cleaning_agent := CleaningAgent.naoh, sonication := true, cleaning_time := 600 } ] ∧
    (cleaningNormalize mode steps).length = 4 ∧
    ∀ st ∈ cleaningNormalize mode steps, st.sonication = true := by
  subst h
  refine ⟨rfl, rfl, ?_⟩
  intro st hst
  simp [cleaningNormalize, standardCleaningSteps] at hst
  rcases hst with h | h | h | h <;> subst h <;> rfl

/-- C2 witness: a "Standard" cleaning with a stale one-step list comes out
as the fixed four-step protocol. -/
theorem standard_cleaning_four_steps_witness :
    CleaningProcedureMode.standard = CleaningProcedureMode.standard ∧
    (cleaningNormalize CleaningProcedureMode.standard
       [{ cleaning_agent := CleaningAgent.uvOzone, sonication := false, cleaning_time := 60 }] =
      [ { cleaning_agent := CleaningAgent.acetone, sonication := true, cleaning_time := 300 }
      , { cleaning_agent := CleaningAgent.helmanex, sonication := true, cleaning_time := 300 }
      , { cleaning_agent := CleaningAgent.ipa, sonication := true, cleaning_time := 300 }
      , { cleaning_agent := CleaningAgent.naoh, sonication := true, cleaning_time := 600 } ] ∧
     (cleaningNormalize CleaningProcedureMode.standard
       [{ cleaning_agent := CleaningAgent.uvOzone, sonication := false, cleaning_time := 60 }]).length = 4 ∧
     ∀ st ∈ cleaningNormalize CleaningProcedureMode.standard
       [{ cleaning_agent := CleaningAgent.uvOzone, sonication := false, cleaning_time := 60 }],
       st.sonication = true) :=
  ⟨rfl, standard_cleaning_four_steps _ _ rfl⟩

/-- C3: with the calculation triggered and a non-empty solvent list, each
solvent's computed volume is `total_volume × (ratio / sum of ratios)`; in
particular ratios [1, 1, 2] give volumes [V/4, V/4, V/2]. -/
theorem solvent_volume_proportional (s : ForOPVSolution)
    (hcalc : s.calculate_solution = true) (hne : s.solvents ≠ []) :
    solventVolumes s = s.solvents.map
      (fun c => s.total_volume * (c.ratio / totalSolventRatio s)) ∧
    (s.solvents.map SolventComponent.ratio = [1, 1, 2] →
      solventVolumes s =
        [s.total_volume / 4, s.total_volume / 4, s.total_volume / 2]) := by
  constructor
  · simp [solventVolumes, mul_div_assoc]
  · intro hr
    have hR : totalSolventRatio s = 4 := by
      unfold totalSolventRatio
      rw [hr]
      norm_num
    have hmap : solventVolumes s
        = (s.solvents.map SolventComponent.ratio).map
            (fun r => s.total_volume * r / 4) := by
      unfold solventVolumes
      rw [hR, List.map_map]
      rfl
    rw [hmap, hr]
    simp only [List.map_cons, List.map_nil, List.cons.injEq, and_true]
    exact ⟨by ring, by ring, by ring⟩

/-- A concrete solution with solvent ratios [1, 1, 2], used to instantiate
the solvent-proportionality claim. -/
def solventMix : ForOPVSolution :=
  { solvents := [{ ratio := 1, name := "CB" }, { ratio := 1, name := "CF" },
                 { ratio := 2, name := "oXy" }]
    donors := [], acceptors := [], additives := []
    total_volume := 0.0006, solute_concentration := 15
    calculate_solution := true
    calculated_solution := "" }

/-- C3 witness: ratios [1, 1, 2] with total volume V = 0.0006 l give
computed volumes [V/4, V/4, V/2]. -/
theorem solvent_volume_proportional_witness :
    solventMix.calculate_solution = true ∧
    solventMix.solvents ≠ [] ∧
    solventVolumes solventMix =
      [solventMix.total_volume / 4, solventMix.total_volume / 4,
       solventMix.total_volume / 2] := by
  refine ⟨rfl, by simp [solventMix], ?_⟩
  exact (solvent_volume_proportional solventMix rfl (by simp [solventMix])).2
    (by simp [solventMix])

/-- C4: with the calculation triggered, each donor's and each acceptor's
computed mass is `(solute_concentration × total_volume) × (ratio / sum of
the ratios over the donors and acceptors lists combined)`. -/
theorem osc_mass_proportional (s : ForOPVSolution)
    (hcalc : s.calculate_solution = true) :
    donorMasses s = s.donors.map (fun c =>
      s.solute_concentration * s.total_volume
        * (c.ratio / totalOscRatio s)) ∧
    acceptorMasses s = s.acceptors.map (fun c =>
      s.solute_concentration * s.total_volume
        * (c.ratio / totalOscRatio s)) := by
  constructor <;>
    simp [donorMasses, acceptorMasses, totalOscMass, mul_div_assoc]

/-- A concrete solution with one donor (ratio 1) and one acceptor
(ratio 1.2), used to instantiate the donor/acceptor mass claim. -/
def oscMix : ForOPVSolution :=
  { solvents := []
    donors := [{ ratio := 1, name := "PM6" }]
    acceptors := [{ ratio := 1.2, name := "Y6" }]
    additives := []
    total_volume := 0.0006, solute_concentration := 15
    calculate_solution := true
    calculated_solution := "" }

/-- C4 witness: one donor of ratio 1 and one acceptor of ratio 1.2 at
concentration 15 g/l and volume 0.0006 l receive masses proportional to
1/2.2 and 1.2/2.2 of the total solute mass. -/
theorem osc_mass_proportional_witness :
    oscMix.calculate_solution = true ∧
    (donorMasses oscMix = oscMix.donors.map (fun c =>
        oscMix.solute_concentration * oscMix.total_volume
          * (c.ratio / totalOscRatio oscMix)) ∧
     acceptorMasses oscMix = oscMix.acceptors.map (fun c =>
        oscMix.solute_concentration * oscMix.total_volume
          * (c.ratio / totalOscRatio oscMix))) :=
  ⟨rfl, osc_mass_proportional oscMix rfl⟩

/-- C5: with the calculation triggered, every empty component list yields
its literal placeholder report line — "No donor components defined" for
donors, and analogously for solvents, acceptors and additives — and every
division with a data-dependent denominator the report performs divides by
the ratio sum of a NON-empty component list, so an empty list never causes
a division by zero. -/
theorem empty_component_placeholders (s : ForOPVSolution)
    (hcalc : s.calculate_solution = true) :
    (s.donors = [] → "No donor components defined" ∈ reportLines s) ∧
    (s.solvents = [] → "No solvent components defined" ∈ reportLines s) ∧
    (s.acceptors = [] → "No acceptor components defined" ∈ reportLines s) ∧
    (s.additives = [] → "No additives components defined" ∈ reportLines s) ∧
    (∀ d ∈ reportDenoms s,
      (d = totalSolventRatio s ∧ s.solvents ≠ []) ∨
      (d = totalOscRatio s ∧ (s.donors ≠ [] ∨ s.acceptors ≠ []))) := by
  refine ⟨?_, ?_, ?_, ?_, ?_⟩
  · intro h
    simp [reportLines, oscStrings, h]
  · intro h
    simp [reportLines, solventStrings, h]
  · intro h
    simp [reportLines, oscStrings, h]
  · intro h
    simp [reportLines, additiveStrings, h]
  · intro d hd
    unfold reportDenoms at hd
    by_cases h1 : s.solvents = [] <;>
      by_cases h2 : s.donors = [] ∧ s.acceptors = [] <;>
        simp [h1, h2] at hd <;> tauto

/-- C5 witness: a solution with all four component lists empty produces all
four placeholder lines and performs no data-dependent division at all. -/
theorem empty_component_placeholders_witness :
    ({ solvents := [], donors := [], acceptors := [], additives := []
       total_volume := 0.0006, solute_concentration := 15
       calculate_solution := true
       calculated_solution := "" } : ForOPVSolution).calculate_solution = true ∧
    "No donor components defined" ∈ reportLines
      { solvents := [], donors := [], acceptors := [], additives := []
        total_volume := 0.0006, solute_concentration := 15
        calculate_solution := true
        calculated_solution := "" } :=
  ⟨rfl,
    (empty_component_placeholders
      { solvents := [], donors := [], acceptors := [], additives := []
        total_volume := 0.0006, solute_concentration := 15
        calculate_solution := true
        calculated_solution := "" } rfl).1 rfl⟩

/-- C10: with `calculate_solution` false, `normalize` leaves
`calculated_solution`, the four component lists, `total_volume` and
`solute_concentration` unchanged — the calculation and report generation
run only when the trigger flag is set. -/
theorem solution_no_trigger_frame (s : ForOPVSolution)
    (h : s.calculate_solution = false) :
    (solutionNormalize s).calculated_solution = s.calculated_solution ∧
    (solutionNormalize s).solvents = s.solvents ∧
    (solutionNormalize s).donors = s.donors ∧
    (solutionNormalize s).acceptors = s.acceptors ∧
    (solutionNormalize s).additives = s.additives ∧
    (solutionNormalize s).total_volume = s.total_volume ∧
    (solutionNormalize s).solute_concentration = s.solute_concentration := by
  simp [solutionNormalize, h]

/-- C10 witness: an untriggered solution passes through `normalize`
unchanged on every modelled field. -/
theorem solution_no_trigger_frame_witness :
    ({ solvents := [{ ratio := 1, name := "CB" }]
       donors := [], acceptors := [], additives := []
       total_volume := 0.0006, solute_concentration := 15
       calculate_solution := false
       calculated_solution := "old" } : ForOPVSolution).calculate_solution
      = false ∧
    (solutionNormalize
      { solvents := [{ ratio := 1, name := "CB" }]
        donors := [], acceptors := [], additives := []
        total_volume := 0.0006, solute_concentration := 15
        calculate_solution := false
        calculated_solution := "old" }).calculated_solution = "old" :=
  ⟨rfl,
    (solution_no_trigger_frame
      { solvents := [{ ratio := 1, name := "CB" }]
        donors := [], acceptors := [], additives := []
        total_volume := 0.0006, solute_concentration := 15
        calculate_solution := false
        calculated_solution := "old" } rfl).1⟩

/-- C7: `next_used_in` walks the batch's child references in list order,
keeps only those that resolve to a substrate, and returns the first one the
host search reports as used in at least one record of the target type (in
negated mode, the first reported as used in none); when no child reference
qualifies it returns `None`.  Stated as: the loop equals `find?` of the
selection predicate over the resolved references. -/
theorem next_used_in_finds_first {α : Type} (usedCount : α → Nat)
    (negate : Bool) (refs : List (SubstrateRef α)) :
    nextUsedIn usedCount negate refs =
      (refs.filterMap resolveRef).find? (usedInPred usedCount negate) := by
  induction refs with
  | nil => rfl
  | cons r rest ih =>
    rw [nextUsedIn_cons]
    cases hr : resolveRef r with
    | none =>
      simp only [List.filterMap_cons, hr]
      exact ih
    | some sub =>
      simp only [List.filterMap_cons, hr]
      by_cases hq : usedInPred usedCount negate sub = true
      · rw [if_pos hq, List.find?_cons_of_pos _ hq]
      · rw [if_neg hq, List.find?_cons_of_neg _ (by simpa using hq)]
        exact ih

end NomadForematics
